import Mathlib

/-!
Shallow embedding of the `fancy_subprocess` process-execution-and-retry engine
(`fancy_subprocess/_run_core.py`, `_run_param.py`, `_utils.py`).

Modelling conventions:
- Python `str` values that only flow through message formatting are Lean `String`;
  the captured output buffer, where character-level slicing matters, is `List Char`.
- Python exceptions raised by property accessors (`ValueError`) are modelled with
  `Except PyError`; the unified `RunError` raised by `run` is modelled with
  `Except RunError`, so by construction no other exception type escapes.
- The external child process is modelled by a `SpawnOutcome`: either the launch
  raised an `OSError`, or the process ran, produced a sequence of raw lines on its
  merged stdout+stderr stream, and exited with a code.
- Python floats (sleep durations) are modelled as rationals `ℚ`.
- The external libraries `oslex` (command quoting), `signal` (signal-name table)
  and `ntstatus` (known NTSTATUS table) are parameters of the definitions.
-/

namespace FancySubprocess

/-- Model of a Python `OSError` as far as `_run_core.py` observes it:
its type name (`type(e).__name__`) and its message (`str(e)`). -/
structure OSErrorModel where
  typeName : String
  msg : String
deriving DecidableEq

/-- `RunResult` from `_run_core.py` (lines 19-30): `exit_code: int = 0`,
`output: str = ''`. The output is kept as a list of characters. -/
structure RunResult where
  exit_code : Int := 0
  output : List Char := []
deriving DecidableEq

/-- `RunError` from `_run_core.py` (lines 32-54): `cmd` plus
`result: RunResult | OSError = RunResult()`. -/
structure RunError where
  cmd : List String
  result : RunResult ⊕ OSErrorModel := Sum.inl {}
deriving DecidableEq

/-- A Python exception raised by a property accessor. -/
inductive PyError
  | valueError (msg : String)
deriving DecidableEq

/-- `RunError.completed` (line 56-58): `isinstance(self.result, RunResult)`. -/
def RunError.completed (e : RunError) : Bool :=
  match e.result with
  | Sum.inl _ => true
  | Sum.inr _ => false

/-- `RunError.exit_code` (lines 60-65): returns the completed result's exit code,
raises `ValueError` otherwise. -/
def RunError.exit_code (e : RunError) : Except PyError Int :=
  match e.result with
  | Sum.inl r => Except.ok r.exit_code
  | Sum.inr _ => Except.error (PyError.valueError "...")

/-- `RunError.output` (lines 67-72). -/
def RunError.output (e : RunError) : Except PyError (List Char) :=
  match e.result with
  | Sum.inl r => Except.ok r.output
  | Sum.inr _ => Except.error (PyError.valueError "...")

/-- `RunError.oserror` (lines 74-79). -/
def RunError.oserror (e : RunError) : Except PyError OSErrorModel :=
  match e.result with
  | Sum.inl _ => Except.error (PyError.valueError "...")
  | Sum.inr err => Except.ok err

/-- `RunError.message` (lines 81-91), parameterized by the external `oslex_join`
(`quote`) and by `stringify_exit_code` (`stringify`). -/
def RunError.message (quote : List String → String) (stringify : Int → Option String)
    (e : RunError) : String :=
  match e.result with
  | Sum.inl r =>
    let exit_code_comment :=
      match stringify r.exit_code with
      | some s => " (" ++ s ++ ")"
      | none => ""
    "Command failed with exit code " ++ toString r.exit_code ++ exit_code_comment
      ++ ": " ++ quote e.cmd
  | Sum.inr err =>
    "Exception " ++ err.typeName ++ " with message \"" ++ err.msg
      ++ "\" was raised while trying to run command: " ++ quote e.cmd

/-- The success policy actually passed to `run`: either the `ANY_EXIT_CODE`
sentinel (`AnyExitCode` in `_run_param.py`) or an explicit sequence of codes. -/
inductive SuccessSpec
  | any
  | codes (s : List Int)
deriving DecidableEq

/-- `run` lines 151-152: `if success is None: success = [0]`. -/
def resolveSuccess : Option SuccessSpec → SuccessSpec
  | none => SuccessSpec.codes [0]
  | some p => p

/-- The classification test on line 186:
`isinstance(success, AnyExitCode) or result.exit_code in success`. -/
def is_success (exit_code : Int) : SuccessSpec → Bool
  | SuccessSpec.any => true
  | SuccessSpec.codes s => s.contains exit_code

/-- Python `line.removesuffix('\n')`: drop one trailing newline if present. -/
def removesuffixNewline (l : List Char) : List Char :=
  if l.getLast? = some '\n' then l.dropLast else l

/-- One iteration of the read loop's buffer update (lines 177-179):
`output += line + '\n'`, then if `len(output) > max_output_size + 1`,
`output = output[-max_output_size-1:]` (keep the trailing
`max_output_size + 1` characters). `line` is the already-stripped line. -/
def appendLine (max_output_size : Nat) (output line : List Char) : List Char :=
  let out := output ++ line ++ ['\n']
  if max_output_size + 1 < out.length then
    out.drop (out.length - (max_output_size + 1))
  else
    out

/-- The full unbounded concatenation of all appended lines,
each with a trailing newline. -/
def fullOutput (lines : List (List Char)) : List Char :=
  (lines.map (fun l => l ++ ['\n'])).flatten

/-- The environment's view of one execution attempt: either `subprocess.Popen`
raised an `OSError`, or the child ran, its merged stdout+stderr stream yielded
`rawLines` (as returned by `readline`, i.e. normally ending in a newline), and
it exited with `exit_code`. -/
inductive SpawnOutcome
  | launchFail (e : OSErrorModel)
  | ran (rawLines : List (List Char)) (exit_code : Int)

/-- Observable behaviour of one `attempt_run` call: the arguments passed to
`print_output` (one per line, newline stripped, in order) and the returned
`RunResult` or raised `RunError`. -/
structure AttemptTrace where
  outputLines : List (List Char)
  result : Except RunError RunResult

/-- `attempt_run` from `run` (lines 161-189): stream the child's lines, feeding
each (newline stripped) to `print_output` and to the bounded buffer; on
`OSError` raise `RunError` carrying it; on completion build the `RunResult`
(buffer with exactly one trailing newline stripped), classify the exit code and
either return the result or raise `RunError` carrying it. -/
def attempt_run (cmd : List String) (success : SuccessSpec) (max_output_size : Nat)
    (beh : SpawnOutcome) : AttemptTrace :=
  match beh with
  | SpawnOutcome.launchFail e =>
    { outputLines := [], result := Except.error { cmd := cmd, result := Sum.inr e } }
  | SpawnOutcome.ran rawLines code =>
    let lines := rawLines.map removesuffixNewline
    let output := lines.foldl (appendLine max_output_size) []
    let result : RunResult := { exit_code := code, output := removesuffixNewline output }
    if is_success code success then
      { outputLines := lines, result := Except.ok result }
    else
      { outputLines := lines,
        result := Except.error { cmd := cmd, result := Sum.inl result } }

/-- Observable behaviour of the retry loop in `run` (lines 191-205): the final
outcome, the number of `attempt_run` calls made, the `time.sleep` durations in
order, and the `print_message` calls made by the loop itself (the error message
and the "Retrying in ..." notice for each failed guarded attempt). -/
structure RetryTrace where
  outcome : Except RunError RunResult
  numAttempts : Nat
  sleeps : List ℚ
  messages : List String

/-- The retry announcement printed on line 201, with the pluralization from
lines 197-200. -/
def retryAnnounce (sleep_seconds : ℚ) (attempts_left : Nat) : String :=
  let plural := if attempts_left ≠ 1 then "s" else ""
  "Retrying in " ++ toString sleep_seconds ++ " seconds (" ++ toString attempts_left
    ++ " attempt" ++ plural ++ " left)..."

/-- The loop `for attempts_left in range(retry, 0, -1)` (lines 192-203) followed
by the final unguarded `return attempt_run()` (line 205). The first argument of
the fuel counter is the number of guarded iterations left (so inside an
iteration the Python `attempts_left` equals the fuel); `idx` numbers the
attempts from 0; `sleep_seconds` is multiplied by `retry_backoff` after every
retry sleep. `attempt i` is the result of the i-th `attempt_run` call and
`errMsg` is `str(e)` for the caught `RunError`. -/
def runRetryAux (attempt : Nat → Except RunError RunResult) (errMsg : RunError → String)
    (retry_backoff : ℚ) : Nat → Nat → ℚ → RetryTrace
  | 0, idx, _ =>
    { outcome := attempt idx, numAttempts := 1, sleeps := [], messages := [] }
  | attempts_left + 1, idx, sleep_seconds =>
    match attempt idx with
    | Except.ok r =>
      { outcome := Except.ok r, numAttempts := 1, sleeps := [], messages := [] }
    | Except.error e =>
      let rest := runRetryAux attempt errMsg retry_backoff attempts_left (idx + 1)
        (sleep_seconds * retry_backoff)
      { outcome := rest.outcome,
        numAttempts := rest.numAttempts + 1,
        sleeps := sleep_seconds :: rest.sleeps,
        messages := errMsg e :: retryAnnounce sleep_seconds (attempts_left + 1)
          :: rest.messages }

/-- `run` (lines 96-205), restricted to what the claims observe: default the
success policy, then drive `attempt_run` through the retry loop, starting with
`sleep_seconds = retry_initial_sleep_seconds`. `beh i` is the environment's
behaviour on the i-th attempt; `quote` and `stringify` stand for `oslex_join`
and `stringify_exit_code` in the messages. -/
def run (cmd : List String) (quote : List String → String)
    (stringify : Int → Option String) (success : Option SuccessSpec)
    (max_output_size : Nat) (retry : Nat) (retry_initial_sleep_seconds : ℚ)
    (retry_backoff : ℚ) (beh : Nat → SpawnOutcome) : RetryTrace :=
  runRetryAux (fun i => (attempt_run cmd (resolveSuccess success) max_output_size (beh i)).result)
    (fun e => RunError.message quote stringify e) retry_backoff retry 0
    retry_initial_sleep_seconds

/-- One uppercase hexadecimal digit character for `n < 16`. -/
def hexDigitChar (n : Nat) : Char :=
  if n < 10 then Char.ofNat (48 + n) else Char.ofNat (55 + n)

/-- The last `k` hexadecimal digits of `v`, zero padded, most significant
first (Python `f'{v:0kX}'`). -/
def hexDigits : Nat → Nat → List Char
  | 0, _ => []
  | k + 1, v => hexDigits k (v / 16) ++ [hexDigitChar (v % 16)]

/-- Python `f'0x{v:08X}'`. -/
def toHex8 (v : Nat) : String :=
  "0x" ++ String.mk (hexDigits 8 v)

/-- `ntstatus.NtStatusSeverity.STATUS_SEVERITY_SUCCESS` has value 0. -/
def STATUS_SEVERITY_SUCCESS : Nat := 0

/-- The severity of a 32-bit NTSTATUS word: its top two bits
(`ntstatus` computes `(value >> 30) & 0b11`). -/
def severity (w : Nat) : Nat := w / 2 ^ 30 % 4

/-- The two OS families distinguished by `sys.platform == 'win32'`. -/
inductive Platform
  | win32
  | posix
deriving DecidableEq

/-- `stringify_exit_code` from `_utils.py` (lines 17-41), parameterized by the
external tables: `signalName n` is `signal.Signals(n).name` when `n` is a known
signal number and `none` when that constructor raises `ValueError`;
`ntstatusName w` is `NtStatus(w).name` when `w` is a known NTSTATUS value and
`none` when that constructor raises `ValueError`. On win32, `ThirtyTwoBits`
accepts exactly the integers representable as signed or unsigned 32-bit values
and its `unsigned_value` is the value modulo 2^32. -/
def stringify_exit_code (plat : Platform) (signalName : Int → Option String)
    (ntstatusName : Nat → Option String) (exit_code : Int) : Option String :=
  match plat with
  | Platform.win32 =>
    if -(2 ^ 31) ≤ exit_code ∧ exit_code < 2 ^ 32 then
      let w : Nat := (exit_code % (2 ^ 32 : Int)).toNat
      match ntstatusName w with
      | some nm =>
        if severity w ≠ STATUS_SEVERITY_SUCCESS then some nm else some (toHex8 w)
      | none => some (toHex8 w)
    else
      none
  | Platform.posix =>
    if exit_code < 0 then
      match signalName (-exit_code) with
      | some nm => some nm
      | none => some "unknown signal"
    else
      none

/-! ### Theorems -/

theorem appendLine_length (m : Nat) (buf line : List Char) :
    (appendLine m buf line).length ≤ m + 1 := by
  simp only [appendLine]
  split
  · rename_i h
    simp only [List.length_drop]
    omega
  · rename_i h
    omega

theorem appendLine_suffix {buf P : List Char} (m : Nat) (line : List Char)
    (h : List.IsSuffix buf P) :
    List.IsSuffix (appendLine m buf line) (P ++ line ++ ['\n']) := by
  have h1 : List.IsSuffix (buf ++ line ++ ['\n']) (P ++ line ++ ['\n']) := by
    obtain ⟨q, rfl⟩ := h
    exact ⟨q, by simp [List.append_assoc]⟩
  simp only [appendLine]
  split
  · exact (List.drop_suffix _ _).trans h1
  · exact h1

theorem foldl_appendLine_inv (m : Nat) (lines : List (List Char)) :
    ∀ (buf P : List Char), buf.length ≤ m + 1 → List.IsSuffix buf P →
      (lines.foldl (appendLine m) buf).length ≤ m + 1 ∧
        List.IsSuffix (lines.foldl (appendLine m) buf) (P ++ fullOutput lines) := by
  induction lines with
  | nil =>
    intro buf P hlen hsuf
    simpa [fullOutput] using ⟨hlen, hsuf⟩
  | cons l ls ih =>
    intro buf P hlen hsuf
    have step := ih (appendLine m buf l) (P ++ l ++ ['\n'])
      (appendLine_length m buf l) (appendLine_suffix m l hsuf)
    constructor
    · simpa using step.1
    · simpa [fullOutput, List.append_assoc] using step.2

/-- C1: for every sequence of appended lines and every non-negative
`max_output_size`, the buffer maintained by the read loop never holds more than
`max_output_size + 1` characters after any append-and-truncate step, and it is
always a contiguous suffix of the full unbounded concatenation of all lines
appended so far, each with a trailing newline. (Quantifying over every `lines`
sequence covers the buffer's state after every step of any longer run.) -/
theorem bounded_buffer_invariant (max_output_size : Nat) (lines : List (List Char)) :
    (lines.foldl (appendLine max_output_size) []).length ≤ max_output_size + 1 ∧
      List.IsSuffix (lines.foldl (appendLine max_output_size) []) (fullOutput lines) := by
  have h := foldl_appendLine_inv max_output_size lines [] []
    (by simp) (List.suffix_refl [])
  simpa using h

theorem runRetryAux_fail (attempt : Nat → Except RunError RunResult)
    (errMsg : RunError → String) (backoff : ℚ)
    (hfail : ∀ i, ∃ e, attempt i = Except.error e) :
    ∀ (k idx : Nat) (s : ℚ),
      (runRetryAux attempt errMsg backoff k idx s).numAttempts = k + 1 ∧
      (runRetryAux attempt errMsg backoff k idx s).outcome = attempt (idx + k) ∧
      (runRetryAux attempt errMsg backoff k idx s).sleeps =
        (List.range k).map (fun i => s * backoff ^ i) := by
  intro k
  induction k with
  | zero =>
    intro idx s
    simp [runRetryAux]
  | succ k ih =>
    intro idx s
    obtain ⟨e, he⟩ := hfail idx
    have rest := ih (idx + 1) (s * backoff)
    have hidx : idx + 1 + k = idx + (k + 1) := by omega
    simp only [runRetryAux, he]
    refine ⟨?_, ?_, ?_⟩
    · simp [rest.1]
    · rw [rest.2.1, hidx]
    · rw [rest.2.2, List.range_succ_eq_map, List.map_cons, List.map_map]
      have hfun : (fun i => s * backoff * backoff ^ i) =
          ((fun i => s * backoff ^ i) ∘ Nat.succ) := by
        funext i
        simp only [Function.comp_apply, pow_succ]
        ring
      rw [hfun]
      simp

/-- C2: with retry parameter N and an attempt that always raises `RunError`,
`run` performs exactly N+1 attempts and the error raised to the caller is the
one from the last attempt, propagated unmodified; with retry = 0, exactly one
attempt is performed, with no retry messages and no sleep. -/
theorem retry_accounting (cmd : List String) (quote : List String → String)
    (stringify : Int → Option String) (success : Option SuccessSpec)
    (max_output_size N : Nat) (init backoff : ℚ) (beh : Nat → SpawnOutcome)
    (hfail : ∀ i, ∃ e,
      (attempt_run cmd (resolveSuccess success) max_output_size (beh i)).result =
        Except.error e) :
    (run cmd quote stringify success max_output_size N init backoff beh).numAttempts
        = N + 1 ∧
      (run cmd quote stringify success max_output_size N init backoff beh).outcome =
        (attempt_run cmd (resolveSuccess success) max_output_size (beh N)).result ∧
      run cmd quote stringify success max_output_size 0 init backoff beh =
        { outcome :=
            (attempt_run cmd (resolveSuccess success) max_output_size (beh 0)).result,
          numAttempts := 1, sleeps := [], messages := [] } := by
  have h := runRetryAux_fail
    (fun i => (attempt_run cmd (resolveSuccess success) max_output_size (beh i)).result)
    (fun e => RunError.message quote stringify e) backoff hfail N 0 init
  refine ⟨h.1, ?_, rfl⟩
  have h2 := h.2.1
  simp only [Nat.zero_add] at h2
  exact h2

theorem retry_accounting_witness :
    (run ["x"] (fun _ => "") (fun _ => none) none 5 2 10 2
      (fun _ => SpawnOutcome.launchFail { typeName := "FileNotFoundError", msg := "m" })
      ).numAttempts = 2 + 1 ∧
      (run ["x"] (fun _ => "") (fun _ => none) none 5 2 10 2
        (fun _ => SpawnOutcome.launchFail { typeName := "FileNotFoundError", msg := "m" })
        ).outcome =
        (attempt_run ["x"] (resolveSuccess none) 5
          (SpawnOutcome.launchFail { typeName := "FileNotFoundError", msg := "m" })).result ∧
      run ["x"] (fun _ => "") (fun _ => none) none 5 0 10 2
        (fun _ => SpawnOutcome.launchFail { typeName := "FileNotFoundError", msg := "m" }) =
        { outcome :=
            (attempt_run ["x"] (resolveSuccess none) 5
              (SpawnOutcome.launchFail { typeName := "FileNotFoundError", msg := "m" })).result,
          numAttempts := 1, sleeps := [], messages := [] } :=
  retry_accounting ["x"] (fun _ => "") (fun _ => none) none 5 2 10 2
    (fun _ => SpawnOutcome.launchFail { typeName := "FileNotFoundError", msg := "m" })
    (fun _ => ⟨_, rfl⟩)

/-- C6: on an always-failing command the k-th retry sleep equals
`retry_initial_sleep_seconds * retry_backoff ^ (k-1)` (the multiplier applied
once after every retry sleep, compounding); in particular with initial sleep
10 and backoff 2 the sleeps before attempts 2, 3 and 4 are 10, 20 and 40. -/
theorem backoff_growth (cmd : List String) (quote : List String → String)
    (stringify : Int → Option String) (success : Option SuccessSpec)
    (max_output_size N : Nat) (init backoff : ℚ) (beh : Nat → SpawnOutcome)
    (hfail : ∀ i, ∃ e,
      (attempt_run cmd (resolveSuccess success) max_output_size (beh i)).result =
        Except.error e) :
    (run cmd quote stringify success max_output_size N init backoff beh).sleeps =
        (List.range N).map (fun k => init * backoff ^ k) ∧
      (run cmd quote stringify success max_output_size 3 10 2 beh).sleeps =
        [10, 20, 40] := by
  have h := runRetryAux_fail
    (fun i => (attempt_run cmd (resolveSuccess success) max_output_size (beh i)).result)
    (fun e => RunError.message quote stringify e) backoff hfail N 0 init
  have h3 := runRetryAux_fail
    (fun i => (attempt_run cmd (resolveSuccess success) max_output_size (beh i)).result)
    (fun e => RunError.message quote stringify e) 2 hfail 3 0 10
  refine ⟨h.2.2, ?_⟩
  have h32 := h3.2.2
  rw [show (run cmd quote stringify success max_output_size 3 10 2 beh).sleeps =
    (runRetryAux
      (fun i => (attempt_run cmd (resolveSuccess success) max_output_size (beh i)).result)
      (fun e => RunError.message quote stringify e) 2 3 0 10).sleeps from rfl, h32]
  norm_num [List.range_succ]

theorem backoff_growth_witness :
    (run ["x"] (fun _ => "") (fun _ => none) none 5 3 10 2
      (fun _ => SpawnOutcome.launchFail { typeName := "E", msg := "m" })).sleeps =
        (List.range 3).map (fun k => (10 : ℚ) * 2 ^ k) ∧
      (run ["x"] (fun _ => "") (fun _ => none) none 5 3 10 2
        (fun _ => SpawnOutcome.launchFail { typeName := "E", msg := "m" })).sleeps =
        [10, 20, 40] :=
  backoff_growth ["x"] (fun _ => "") (fun _ => none) none 5 3 10 2
    (fun _ => SpawnOutcome.launchFail { typeName := "E", msg := "m" })
    (fun _ => ⟨_, rfl⟩)

/-- C3: with the `ANY_EXIT_CODE` sentinel every exit code is a success; with an
explicit sequence classification is exactly membership; an absent policy
defaults to `[0]`; and 0 is not implicitly added, so a policy without 0 makes
exit code 0 a failure. -/
theorem success_classification :
    (∀ c : Int, is_success c SuccessSpec.any = true) ∧
      (∀ (c : Int) (s : List Int), is_success c (SuccessSpec.codes s) = true ↔ c ∈ s) ∧
      resolveSuccess none = SuccessSpec.codes [0] ∧
      (∀ s : List Int, 0 ∉ s → is_success 0 (SuccessSpec.codes s) = false) := by
  refine ⟨fun c => rfl, fun c s => ?_, rfl, fun s h => ?_⟩
  · simp [is_success, List.contains]
  · simpa [is_success, List.contains] using h

theorem success_classification_witness :
    is_success 0 (SuccessSpec.codes [1]) = false :=
  success_classification.2.2.2 [1] (by decide)

/-- C5: an attempt raises the unified `RunError` with `completed = False`
carrying the original `OSError` exactly when the child process could not be
started; by the return type of `attempt_run` (`Except RunError RunResult`) no
exception other than `RunError` escapes, and the raw `OSError` is never
propagated. -/
theorem launch_failure_unified (cmd : List String) (success : SuccessSpec)
    (max_output_size : Nat) (beh : SpawnOutcome) :
    (∀ e, beh = SpawnOutcome.launchFail e →
        (attempt_run cmd success max_output_size beh).result =
          Except.error { cmd := cmd, result := Sum.inr e }) ∧
      (∀ err, (attempt_run cmd success max_output_size beh).result = Except.error err →
        ((err.completed = false ↔ ∃ e, beh = SpawnOutcome.launchFail e) ∧
          ∀ e, beh = SpawnOutcome.launchFail e → err.oserror = Except.ok e)) := by
  cases beh with
  | launchFail e =>
    refine ⟨fun e' he => ?_, fun err herr => ?_⟩
    · cases he
      rfl
    · simp only [attempt_run, Except.error.injEq] at herr
      subst herr
      refine ⟨by simp [RunError.completed], fun e' he' => ?_⟩
      cases he'
      rfl
  | ran lines code =>
    refine ⟨fun e he => ?_, fun err herr => ?_⟩
    · cases he
    simp only [attempt_run] at herr
    split at herr
    · simp at herr
    · simp only [Except.error.injEq] at herr
      subst herr
      exact ⟨by simp [RunError.completed], fun e he => by cases he⟩

theorem launch_failure_unified_witness :
    (attempt_run ["x"] SuccessSpec.any 5
        (SpawnOutcome.launchFail { typeName := "FileNotFoundError", msg := "m" })).result =
      Except.error
        { cmd := ["x"],
          result := Sum.inr { typeName := "FileNotFoundError", msg := "m" } } :=
  (launch_failure_unified ["x"] SuccessSpec.any 5
    (SpawnOutcome.launchFail { typeName := "FileNotFoundError", msg := "m" })).1 _ rfl

/-- C7: a command whose stream yields lines "a" and "b" and which exits with
code 0, run with default settings, returns `RunResult` with exit code 0 and
output "a\nb"; the line sink receives "a" then "b" (newlines stripped, in
order); the buffer accumulates "a\nb\n" and the returned output is that buffer
with exactly one trailing newline stripped. -/
theorem end_to_end_ab (cmd : List String) (quote : List String → String)
    (stringify : Int → Option String) :
    (attempt_run cmd (resolveSuccess none) (10 * 1000 * 1000)
        (SpawnOutcome.ran [['a', '\n'], ['b', '\n']] 0)).outputLines =
        [['a'], ['b']] ∧
      ([['a'], ['b']].foldl (appendLine (10 * 1000 * 1000)) []) =
        ['a', '\n', 'b', '\n'] ∧
      (attempt_run cmd (resolveSuccess none) (10 * 1000 * 1000)
        (SpawnOutcome.ran [['a', '\n'], ['b', '\n']] 0)).result =
        Except.ok { exit_code := 0, output := removesuffixNewline ['a', '\n', 'b', '\n'] } ∧
      (run cmd quote stringify none (10 * 1000 * 1000) 0 10 2
        (fun _ => SpawnOutcome.ran [['a', '\n'], ['b', '\n']] 0)).outcome =
        Except.ok { exit_code := 0, output := ['a', '\n', 'b'] } :=
  ⟨rfl, rfl, rfl, rfl⟩

/-- C9: reading `exit_code` or `output` on a non-completed `RunError`, or
`oserror` on a completed one, raises `ValueError` rather than returning a
default. -/
theorem wrong_variant_access (err : RunError) :
    (err.completed = false →
        (∃ m, err.exit_code = Except.error (PyError.valueError m)) ∧
          ∃ m, err.output = Except.error (PyError.valueError m)) ∧
      (err.completed = true →
        ∃ m, err.oserror = Except.error (PyError.valueError m)) := by
  obtain ⟨c, r⟩ := err
  cases r with
  | inl r =>
    refine ⟨fun hc => ?_, fun _ => ⟨"...", rfl⟩⟩
    simp [RunError.completed] at hc
  | inr e =>
    refine ⟨fun _ => ⟨⟨"...", rfl⟩, "...", rfl⟩, fun hc => ?_⟩
    simp [RunError.completed] at hc

theorem wrong_variant_access_witness :
    (∃ m, RunError.exit_code
        { cmd := ["x"], result := Sum.inr { typeName := "E", msg := "m" } } =
        Except.error (PyError.valueError m)) ∧
      ∃ m, RunError.output
        { cmd := ["x"], result := Sum.inr { typeName := "E", msg := "m" } } =
        Except.error (PyError.valueError m) :=
  (wrong_variant_access
    { cmd := ["x"], result := Sum.inr { typeName := "E", msg := "m" } }).1 rfl

/-- C10: constructing `RunError` with only `cmd` uses the default payload
`RunResult()`: the instance is completed with exit code 0 and empty output,
even though no process ran. -/
theorem default_result_payload (cmd : List String) :
    ({ cmd := cmd } : RunError).completed = true ∧
      RunError.exit_code { cmd := cmd } = Except.ok 0 ∧
      RunError.output { cmd := cmd } = Except.ok [] :=
  ⟨rfl, rfl, rfl⟩

/-- The sixteen uppercase hexadecimal digit characters. -/
def hexUppercase : List Char := "0123456789ABCDEF".toList

theorem hexDigits_length (k : Nat) : ∀ v : Nat, (hexDigits k v).length = k := by
  induction k with
  | zero =>
    intro v
    rfl
  | succ k ih =>
    intro v
    simp [hexDigits, ih]

theorem hexDigitChar_mem (n : Nat) (h : n < 16) : hexDigitChar n ∈ hexUppercase := by
  interval_cases n <;> decide

theorem hexDigits_mem (k : Nat) : ∀ v : Nat, ∀ ch ∈ hexDigits k v, ch ∈ hexUppercase := by
  induction k with
  | zero =>
    intro v ch hch
    simp [hexDigits] at hch
  | succ k ih =>
    intro v ch hch
    simp only [hexDigits, List.mem_append, List.mem_singleton] at hch
    rcases hch with hch | hch
    · exact ih (v / 16) ch hch
    · subst hch
      exact hexDigitChar_mem _ (Nat.mod_lt _ (by norm_num))

/-- C4: `stringify_exit_code` is pure and, on the POSIX family, maps a negative
exit code to the known signal name of `-exit_code` or to the literal "unknown
signal", and a non-negative code to nothing; on the Windows family it maps a
code not representable in 32 bits to nothing, a known non-success-severity
NTSTATUS word to its name, and anything else to `0x` followed by 8 uppercase
hexadecimal digits. -/
theorem stringify_exit_code_spec :
    (∀ (sig : Int → Option String) (nt : Nat → Option String) (c : Int), c < 0 →
        stringify_exit_code Platform.posix sig nt c =
          some ((sig (-c)).getD "unknown signal")) ∧
      (∀ (sig : Int → Option String) (nt : Nat → Option String) (c : Int), 0 ≤ c →
        stringify_exit_code Platform.posix sig nt c = none) ∧
      (∀ (sig : Int → Option String) (nt : Nat → Option String) (c : Int),
        c < -(2 ^ 31) ∨ 2 ^ 32 ≤ c →
        stringify_exit_code Platform.win32 sig nt c = none) ∧
      (∀ (sig : Int → Option String) (nt : Nat → Option String) (c : Int)
        (nm : String), -(2 ^ 31) ≤ c → c < 2 ^ 32 →
        nt (c % 2 ^ 32).toNat = some nm →
        severity (c % 2 ^ 32).toNat ≠ STATUS_SEVERITY_SUCCESS →
        stringify_exit_code Platform.win32 sig nt c = some nm) ∧
      (∀ (sig : Int → Option String) (nt : Nat → Option String) (c : Int),
        -(2 ^ 31) ≤ c → c < 2 ^ 32 →
        (nt (c % 2 ^ 32).toNat = none ∨
          severity (c % 2 ^ 32).toNat = STATUS_SEVERITY_SUCCESS) →
        stringify_exit_code Platform.win32 sig nt c =
          some (toHex8 (c % 2 ^ 32).toNat)) ∧
      ∀ v : Nat, toHex8 v = "0x" ++ String.mk (hexDigits 8 v) ∧
        (hexDigits 8 v).length = 8 ∧ ∀ ch ∈ hexDigits 8 v, ch ∈ hexUppercase := by
  refine ⟨fun sig nt c h => ?_, fun sig nt c h => ?_, fun sig nt c h => ?_,
    fun sig nt c nm h1 h2 hnt hsev => ?_, fun sig nt c h1 h2 hcase => ?_,
    fun v => ⟨rfl, hexDigits_length 8 v, hexDigits_mem 8 v⟩⟩
  · simp only [stringify_exit_code, if_pos h]
    cases hs : sig (-c) <;> simp [hs]
  · simp only [stringify_exit_code]
    rw [if_neg (by omega)]
  · simp only [stringify_exit_code]
    rw [if_neg ?_]
    rintro ⟨hlo, hhi⟩
    rcases h with h | h
    · linarith
    · linarith
  · simp only [stringify_exit_code, if_pos (And.intro h1 h2)]
    norm_num at hnt hsev
    simp [hnt, hsev]
  · simp only [stringify_exit_code, if_pos (And.intro h1 h2)]
    rcases hcase with hnt | hsev
    · norm_num at hnt
      simp [hnt]
    · cases hnt : nt (c % 2 ^ 32).toNat with
      | none =>
        norm_num at hnt
        simp [hnt]
      | some nm =>
        norm_num at hnt hsev
        simp [hnt, hsev]

theorem stringify_exit_code_spec_witness :
    stringify_exit_code Platform.posix
        (fun n => if n = 9 then some "SIGKILL" else none) (fun _ => none) (-9) =
      some "SIGKILL" := by
  have h := stringify_exit_code_spec.1
    (fun n => if n = 9 then some "SIGKILL" else none) (fun _ => none) (-9)
    (by norm_num)
  simpa using h

/-- C8: `str()` of the unified error is
"Command failed with exit code N (label): quoted-command" in the completed
case, with " (label)" omitted entirely when the decoder returns nothing, and
"Exception T with message \"M\" was raised while trying to run command:
quoted-command" in the launch-failure case. -/
theorem run_error_message_format (quote : List String → String)
    (stringify : Int → Option String) (cmd : List String) (r : RunResult)
    (e : OSErrorModel) :
    (stringify r.exit_code = none →
        RunError.message quote stringify { cmd := cmd, result := Sum.inl r } =
          "Command failed with exit code " ++ toString r.exit_code ++ ": "
            ++ quote cmd) ∧
      (∀ label, stringify r.exit_code = some label →
        RunError.message quote stringify { cmd := cmd, result := Sum.inl r } =
          "Command failed with exit code " ++ toString r.exit_code ++ " (" ++ label
            ++ ")" ++ ": " ++ quote cmd) ∧
      RunError.message quote stringify { cmd := cmd, result := Sum.inr e } =
        "Exception " ++ e.typeName ++ " with message \"" ++ e.msg
          ++ "\" was raised while trying to run command: " ++ quote cmd := by
  refine ⟨fun h => ?_, fun label h => ?_, rfl⟩
  · simp [RunError.message, h, String.append_assoc, String.append_empty]
  · simp [RunError.message, h, String.append_assoc]

theorem run_error_message_format_witness :
    RunError.message (fun _ => "c") (fun _ => none)
        { cmd := ["x"], result := Sum.inl {} } =
      "Command failed with exit code 0: c" := by
  have h := (run_error_message_format (fun _ => "c") (fun _ => none) ["x"] {}
    { typeName := "E", msg := "m" }).1 rfl
  rw [h]
  decide

end FancySubprocess
